import Mathlib

/-!
Verification development for the creative-generation studio's request-orchestration
layer. The definitions below are shallow embeddings of the orchestration code:

* the batched fan-out loops of `generateStudioImage` and `generateCompositeImage`
  (src/services/geminiService.ts, `BATCH_SIZE = 4`, `Promise.all` per group,
  per-item `try/catch` converting failures to `null`, and the final
  zero-artifact check that throws);
* the Veo video polling loop of `generateVeoVideo` (fixed 5-second interval,
  re-fetch until `done`, URI extraction, API-key suffixing);
* the defensive JSON parsing of `analyzeProductDetails`
  (`JSON.parse(response.text || "{}")` with a fixed fallback record);
* the category-conditioned action derivation of `generateCreativePrompt`;
* the storyboard scene orchestration of the VideoStoryboard component
  (filtering scenes without an image, per-scene status tracking, and the
  credential-error recovery path).

External collaborators (the generative backend, `JSON.parse`'s input text,
credential provisioning) are modelled as explicit parameters: a generation
call's settled outcome is an `Option String` (`none` = the call threw or
produced no artifact, both of which the code maps to `null`), and the video
operation's successive fetched states are a list consumed by the poll loop.
-/

/-! ## Batch orchestrator (generateStudioImage / generateCompositeImage) -/

/-- `BATCH_SIZE` constant of both batch loops. -/
def BATCH_SIZE : Nat := 4

/-- One group of the outer loop `for (let i = 0; i < quantity; i += BATCH_SIZE)`:
the inner loop `for (let j = 0; j < BATCH_SIZE && i + j < quantity; j++)`
pushes the indices `i, i+1, ...` while both bounds hold, i.e. exactly
`List.range' i (min BATCH_SIZE (quantity - i))`. -/
def batchGroup (quantity W i : Nat) : List Nat :=
  List.range' i (min W (quantity - i))

/-- The list of index groups produced by the outer batching loop, starting at
index `i`.  The loop advances `i` by `W` each iteration and stops when
`i >= quantity`; `fuel` is an explicit bound on the number of iterations
(the loop itself needs none) and is always instantiated large enough. -/
def batchGroupsFuel (quantity W : Nat) : Nat → Nat → List (List Nat)
  | 0, _ => []
  | fuel + 1, i =>
    if 0 < W ∧ i < quantity then
      batchGroup quantity W i :: batchGroupsFuel quantity W fuel (i + W)
    else []

/-- The groups dispatched by a batch run of the given quantity (both
`generateStudioImage` and `generateCompositeImage` use `BATCH_SIZE = 4`). -/
def batchGroups (quantity : Nat) : List (List Nat) :=
  batchGroupsFuel quantity BATCH_SIZE quantity 0

/-- Events of a batch run: item `i`'s generation call is dispatched /
settles. -/
inductive BatchEvent where
  | dispatch (i : Nat)
  | settle (i : Nat)
deriving DecidableEq

/-- The events of one group: the inner loop dispatches every member's call
(`batchPromises.push(generateSingle(i + j))`), then `await Promise.all`
returns only once every member has settled.  Settle order within a group is
canonicalized to index order (the code places no constraint on it). -/
def groupEvents (g : List Nat) : List BatchEvent :=
  g.map BatchEvent.dispatch ++ g.map BatchEvent.settle

/-- The event trace of a whole batch run: groups execute strictly in
sequence (`await Promise.all` separates consecutive iterations of the outer
loop). -/
def batchTrace (quantity : Nat) : List BatchEvent :=
  ((batchGroups quantity).map groupEvents).flatten

/-- `settledBefore tr a b`: in trace `tr`, the settling of item `a`'s call
occurs strictly before the dispatch of item `b`'s call. -/
def settledBefore (tr : List BatchEvent) (a b : Nat) : Prop :=
  ∃ t1 t2 t3, tr = t1 ++ BatchEvent.settle a :: (t2 ++ BatchEvent.dispatch b :: t3)

/-- The urls collected by a batch run.  `gen i` is the settled outcome of
`generateSingle(i)` (some url, or `none` when the call threw — caught by the
item-level `try/catch` — or returned no inline image part).  Per group,
`Promise.all` yields results in dispatch order and
`batchResults.forEach(res => { if (res) generatedUrls.push(res) })`
keeps exactly the non-null ones, in order. -/
def collectedUrls (quantity : Nat) (gen : Nat → Option String) : List String :=
  ((batchGroups quantity).map (fun g => g.filterMap gen)).flatten

/-- `generateStudioImage`, reduced to the orchestration the claims are about:
run the batched loop, then `if (generatedUrls.length === 0) throw new
Error("No image generated")`, else return the collected urls. -/
def generateStudioImage (quantity : Nat) (gen : Nat → Option String) :
    Except String (List String) :=
  let generatedUrls := collectedUrls quantity gen
  if generatedUrls.length = 0 then Except.error "No image generated"
  else Except.ok generatedUrls

/-- `generateCompositeImage`: identical orchestration, different failure
message (`"No composite images generated"`). -/
def generateCompositeImage (quantity : Nat) (gen : Nat → Option String) :
    Except String (List String) :=
  let generatedUrls := collectedUrls quantity gen
  if generatedUrls.length = 0 then Except.error "No composite images generated"
  else Except.ok generatedUrls

/-- Outcome oracle for Scenario E (a batch of 4 where items 2 and 3 — indices
1 and 2 — throw): items 1 and 4 produce artifacts "A" and "D". -/
def scenarioEGen : Nat → Option String :=
  fun i => if i = 0 then some "A" else if i = 3 then some "D" else none

/-! ## Veo video synthesis (generateVeoVideo) and its polling loop -/

/-- The fixed polling interval (`setTimeout(resolve, 5000)`), in
milliseconds. -/
def POLL_INTERVAL_MS : Nat := 5000

/-- An operation handle as observed by the poller: the `done` flag and the
artifact URI that `operation.response?.generatedVideos?.[0]?.video?.uri`
would yield (`none` when any link of that optional chain is absent). -/
structure VeoOperation where
  done : Bool
  videoUri : Option String
deriving DecidableEq

/-- The polling loop `while (!operation.done) { await delay(5000); operation
= await ai.operations.getVideosOperation(...) }`.  `fetches` lists the
successive operation states the backend returns to the re-fetch calls;
`cycles` counts completed delay/re-check cycles.  Returns the final (done)
operation together with the cycle count, or `none` when the backend never
reports done within the observed fetches (the loop keeps running — it has no
timeout). -/
def pollVeo (op : VeoOperation) (fetches : List VeoOperation) (cycles : Nat) :
    Option (VeoOperation × Nat) :=
  if op.done then some (op, cycles)
  else
    match fetches with
    | [] => none
    | f :: rest => pollVeo f rest (cycles + 1)

/-- The poller as a unit (the loop plus the URI extraction from the done
operation): yields the number of delay/re-check cycles and the extracted
artifact URI. -/
def pollVideoResult (initialOp : VeoOperation) (fetches : List VeoOperation) :
    Option (Nat × Option String) :=
  match pollVeo initialOp fetches 0 with
  | none => none
  | some (finalOp, cycles) => some (cycles, finalOp.videoUri)

/-- `generateVeoVideo` after submission: poll until done, then
`if (!videoUri) return null` — `!videoUri` is true both when the URI is
absent and when it is the (falsy) empty string — and otherwise
`return videoUri + "&key=" + process.env.API_KEY`.
Outer `none` = the poll loop has not terminated on the observed fetches;
`some none` = the function returned `null` (done but no usable artifact
URI). -/
def generateVeoVideo (initialOp : VeoOperation) (fetches : List VeoOperation)
    (apiKey : String) : Option (Option String) :=
  match pollVeo initialOp fetches 0 with
  | none => none
  | some (finalOp, _) =>
    match finalOp.videoUri with
    | none => some none
    | some videoUri =>
      if videoUri = "" then some none
      else some (some (videoUri ++ "&key=" ++ apiKey))

/-! ## String utilities shared by the embedded code
(`String.prototype.includes`) -/

/-- `charsStart p l`: `p` is an initial segment of `l`. -/
def charsStart : List Char → List Char → Bool
  | [], _ => true
  | _ :: _, [] => false
  | p :: ps, c :: cs => p == c && charsStart ps cs

/-- `charsHave pat l`: `pat` occurs contiguously somewhere in `l`. -/
def charsHave (pat : List Char) : List Char → Bool
  | [] => charsStart pat []
  | c :: cs => charsStart pat (c :: cs) || charsHave pat cs

/-- JavaScript's `s.includes(pat)`. -/
def strIncludes (s pat : String) : Bool :=
  charsHave pat.toList s.toList

/-! ## Prompt builder: category-conditioned action derivation
(generateCreativePrompt) -/

/-- The `AnalysisResult` interface consumed by `generateCreativePrompt`. -/
structure AnalysisResult where
  description : String
  usp : String
  productCategory : String
  targetGender : String
deriving DecidableEq

/-- `pose.includes("Smart Adaptive") || pose === "Let AI Decide (Auto)"`. -/
def autoActionRequested (pose : String) : Bool :=
  strIncludes pose "Smart Adaptive" || pose == "Let AI Decide (Auto)"

/-- ASCII lowercasing of one character (the fragment of
`String.prototype.toLowerCase` relevant to the keyword matching, which only
compares against ASCII keywords). -/
def charLowerAscii (c : Char) : Char :=
  if 'A' ≤ c ∧ c ≤ 'Z' then Char.ofNat (c.toNat + 32) else c

/-- `s.toLowerCase()` (ASCII fragment). -/
def toLowerAscii (s : String) : String :=
  String.mk (s.toList.map charLowerAscii)

/-- `cat.toLowerCase().includes('shoe') || cat.toLowerCase().includes('footwear')`. -/
def isFootwearCategory (cat : String) : Bool :=
  strIncludes (toLowerAscii cat) "shoe" || strIncludes (toLowerAscii cat) "footwear"

/-- `cat.toLowerCase().includes('skincare') || cat.toLowerCase().includes('cosmetic')`. -/
def isSkincareCategory (cat : String) : Bool :=
  strIncludes (toLowerAscii cat) "skincare" || strIncludes (toLowerAscii cat) "cosmetic"

/-- `cat.toLowerCase().includes('clothing') || cat.toLowerCase().includes('fashion')`. -/
def isApparelCategory (cat : String) : Bool :=
  strIncludes (toLowerAscii cat) "clothing" || strIncludes (toLowerAscii cat) "fashion"

/-- `cat.toLowerCase().includes('beverage') || cat.toLowerCase().includes('food')`. -/
def isBeverageCategory (cat : String) : Bool :=
  strIncludes (toLowerAscii cat) "beverage" || strIncludes (toLowerAscii cat) "food"

/-- The footwear branch's action phrase. -/
def footwearAction : String :=
  "Low angle shot, showing the model\x27s legs/feet walking or dynamic movement with the shoes."

/-- The skincare/cosmetic branch's action phrase. -/
def skincareAction : String :=
  "Close up portrait, model holding product near face, flawless skin texture."

/-- The clothing/fashion branch's action phrase. -/
def apparelAction : String :=
  "Medium or Full shot, model wearing the product, confident fashion pose."

/-- The beverage/food branch's action phrase. -/
def beverageAction : String :=
  "Model holding the item ready to consume/drink, enjoying the moment."

/-- The generic fallback action phrase. -/
def genericAction : String :=
  "Natural interaction with the product in a lifestyle setting."

/-- The `derivedAction` computation of `generateCreativePrompt`: starts as
`pose`; when analysis data is present and automatic action selection is
requested, the if/else-if chain on the lowercased product category picks the
branch phrase, with the generic phrase as the final else. -/
def derivedAction (pose : String) (analysisData : Option AnalysisResult) : String :=
  match analysisData with
  | none => pose
  | some ad =>
    if autoActionRequested pose then
      if isFootwearCategory ad.productCategory then footwearAction
      else if isSkincareCategory ad.productCategory then skincareAction
      else if isApparelCategory ad.productCategory then apparelAction
      else if isBeverageCategory ad.productCategory then beverageAction
      else genericAction
    else pose

/-! ## Scene orchestrator (VideoStoryboard handleGenerate) -/

/-- Per-scene job status (`'generating' | 'completed' | 'failed'`). -/
inductive SceneStatus where
  | generating
  | completed
  | failed
deriving DecidableEq

/-- A `VideoGenerationScene`: the uploaded image is modelled by its base64
payload (`none` = no image uploaded). -/
structure VideoGenerationScene where
  id : String
  image : Option String
  motionPrompt : String
deriving DecidableEq

/-- A `GeneratedVideoResult` entry of the shared result collection. -/
structure GeneratedVideoResult where
  sceneId : String
  videoUrl : String
  status : SceneStatus
deriving DecidableEq

/-- `const validScenes = scenes.filter(s => s.image !== null)`. -/
def validScenes (scenes : List VideoGenerationScene) : List VideoGenerationScene :=
  scenes.filter (fun s => s.image.isSome)

/-- `setGeneratedVideos(validScenes.map(s => ({ sceneId: s.id, videoUrl: '',
status: 'generating' })))`. -/
def initialVideoResults (scenes : List VideoGenerationScene) :
    List GeneratedVideoResult :=
  (validScenes scenes).map (fun s => ⟨s.id, "", SceneStatus.generating⟩)

/-- The dispatch phase of `handleGenerate`: if no scene has an image the run
is aborted before any call (`alert` + `return`, modelled as `none`);
otherwise the initial result collection is installed and one generation job
is dispatched per valid scene (`validScenes.map(async (scene) => ...)`). -/
def handleGenerateInit (scenes : List VideoGenerationScene) :
    Option (List GeneratedVideoResult × List VideoGenerationScene) :=
  let valid := validScenes scenes
  if valid.length = 0 then none
  else some (initialVideoResults scenes, valid)

/-- `status: videoUrl ? 'completed' : 'failed'` — the status a scene's job
gets from the settled value of `generateVeoVideo` (`none` = `null`; the
empty string is falsy in JavaScript). -/
def sceneStatusOf (videoUrl : Option String) : SceneStatus :=
  match videoUrl with
  | none => SceneStatus.failed
  | some u => if u = "" then SceneStatus.failed else SceneStatus.completed

/-- The error-message substring recognized as a credential failure. -/
def credentialErrorPattern : String := "Requested entity was not found"

/-- The user-visible advisory message set on a credential failure. -/
def apiKeyAdvisoryMsg : String :=
  "API Key invalid or not selected properly. Please try again."

/-- `e.message && e.message.includes("Requested entity was not found")` —
`errMsg = none` models a thrown value without a message (or an empty one,
which is falsy). -/
def isCredentialError (errMsg : Option String) : Bool :=
  match errMsg with
  | none => false
  | some m => !(m == "") && strIncludes m credentialErrorPattern

/-- The orchestrator's shared state touched by the per-scene catch handler:
the advisory banner, the number of `aistudio.openSelectKey()` calls issued
(the credential-reacquisition side effect), and the result collection. -/
structure OrchestratorState where
  errorMsg : Option String
  keySelectCalls : Nat
  generatedVideos : List GeneratedVideoResult
deriving DecidableEq

/-- `setGeneratedVideos(prev => prev.map(v => v.sceneId === scene.id ?
{ ...v, status: 'failed' } : v))`. -/
def markSceneFailed (videos : List GeneratedVideoResult) (sceneId : String) :
    List GeneratedVideoResult :=
  videos.map (fun v =>
    if v.sceneId = sceneId then ⟨v.sceneId, v.videoUrl, SceneStatus.failed⟩ else v)

/-- The per-scene catch handler of `handleGenerate`: when the error message
matches the credential pattern, set the advisory message and issue one
`openSelectKey()` call; in every case, mark exactly that scene's job failed.
No retry is dispatched. -/
def handleSceneError (st : OrchestratorState) (sceneId : String)
    (errMsg : Option String) : OrchestratorState :=
  let st1 :=
    if isCredentialError errMsg then
      ⟨some apiKeyAdvisoryMsg, st.keySelectCalls + 1, st.generatedVideos⟩
    else st
  ⟨st1.errorMsg, st1.keySelectCalls, markSceneFailed st1.generatedVideos sceneId⟩

/-! ## Defensive JSON parsing (analyzeProductDetails)

`JSON.parse` is the JavaScript built-in; it is embedded here as a JSON
parser over the response text.  Two deliberate relaxations (both on the
accepting side, so a `parseJson _ = none` hypothesis under-approximates the
set of inputs on which `JSON.parse` throws): number literals may carry
leading zeros, and unescaped control characters are allowed inside string
literals. -/

/-- A parsed JSON value.  Numbers keep their source lexeme uninterpreted
(no claim depends on numeric values). -/
inductive Json where
  | null
  | bool (b : Bool)
  | num (lexeme : String)
  | str (s : String)
  | arr (elems : List Json)
  | obj (members : List (String × Json))

/-- The `"` character. -/
def quoteChar : Char := Char.ofNat 34

/-- The `\` character. -/
def backslashChar : Char := Char.ofNat 92

/-- The opening-brace character. -/
def lbraceChar : Char := Char.ofNat 123

/-- The closing-brace character. -/
def rbraceChar : Char := Char.ofNat 125

/-- JSON insignificant whitespace (space, tab, line feed, carriage return). -/
def isJsonWs (c : Char) : Bool :=
  c == ' ' || c == Char.ofNat 9 || c == Char.ofNat 10 || c == Char.ofNat 13

/-- Drop leading JSON whitespace. -/
def skipWs : List Char → List Char
  | [] => []
  | c :: cs => if isJsonWs c then skipWs cs else c :: cs

/-- Value of a hexadecimal digit. -/
def hexVal (c : Char) : Option Nat :=
  if '0' ≤ c ∧ c ≤ '9' then some (c.toNat - '0'.toNat)
  else if 'a' ≤ c ∧ c ≤ 'f' then some (c.toNat - 'a'.toNat + 10)
  else if 'A' ≤ c ∧ c ≤ 'F' then some (c.toNat - 'A'.toNat + 10)
  else none

/-- Parse the body of a string literal (the opening quote already consumed),
handling the JSON escape sequences.  Returns the string and the input after
the closing quote. -/
def parseStrBody (acc : List Char) : List Char → Option (String × List Char)
  | [] => none
  | c :: cs =>
    if c == quoteChar then some (String.mk acc.reverse, cs)
    else if c == backslashChar then
      match cs with
      | [] => none
      | e :: cs2 =>
        if e == quoteChar then parseStrBody (quoteChar :: acc) cs2
        else if e == backslashChar then parseStrBody (backslashChar :: acc) cs2
        else if e == '/' then parseStrBody ('/' :: acc) cs2
        else if e == 'b' then parseStrBody (Char.ofNat 8 :: acc) cs2
        else if e == 'f' then parseStrBody (Char.ofNat 12 :: acc) cs2
        else if e == 'n' then parseStrBody (Char.ofNat 10 :: acc) cs2
        else if e == 'r' then parseStrBody (Char.ofNat 13 :: acc) cs2
        else if e == 't' then parseStrBody (Char.ofNat 9 :: acc) cs2
        else if e == 'u' then
          match cs2 with
          | h1 :: h2 :: h3 :: h4 :: cs3 =>
            match hexVal h1, hexVal h2, hexVal h3, hexVal h4 with
            | some a, some b, some c4, some d =>
              parseStrBody (Char.ofNat (((a * 16 + b) * 16 + c4) * 16 + d) :: acc) cs3
            | _, _, _, _ => none
          | _ => none
        else none
    else parseStrBody (c :: acc) cs

/-- Take the maximal run of leading decimal digits. -/
def takeDigits : List Char → List Char × List Char
  | [] => ([], [])
  | c :: cs =>
    if c.isDigit then
      let p := takeDigits cs
      (c :: p.1, p.2)
    else ([], c :: cs)

/-- Parse an optional fraction part (`.` followed by digits). -/
def parseFrac (s : List Char) : Option (List Char × List Char) :=
  match s with
  | [] => some ([], [])
  | c :: cs =>
    if c == '.' then
      match takeDigits cs with
      | ([], _) => none
      | (ds, rest) => some (c :: ds, rest)
    else some ([], c :: cs)

/-- Parse an optional exponent part (`e`/`E`, optional sign, digits). -/
def parseExp (s : List Char) : Option (List Char × List Char) :=
  match s with
  | [] => some ([], [])
  | c :: cs =>
    if c == 'e' || c == 'E' then
      let p : List Char × List Char :=
        match cs with
        | d :: ds => if d == '+' || d == '-' then ([d], ds) else ([], cs)
        | [] => ([], [])
      match takeDigits p.2 with
      | ([], _) => none
      | (ds, rest) => some (c :: (p.1 ++ ds), rest)
    else some ([], c :: cs)

/-- Parse a number literal, returning its lexeme and the rest of the input. -/
def parseNum (s : List Char) : Option (List Char × List Char) :=
  let p : List Char × List Char :=
    match s with
    | c :: cs => if c == '-' then ([c], cs) else ([], c :: cs)
    | [] => ([], [])
  match takeDigits p.2 with
  | ([], _) => none
  | (ds, s2) =>
    match parseFrac s2 with
    | none => none
    | some (fs, s3) =>
      match parseExp s3 with
      | none => none
      | some (es, s4) => some (p.1 ++ ds ++ fs ++ es, s4)

mutual

/-- Parse one JSON value (after skipping leading whitespace).  `fuel` bounds
the recursion depth; `parseJson` instantiates it larger than any depth a
string of the given length can produce. -/
def parseVal (fuel : Nat) (s : List Char) : Option (Json × List Char) :=
  match fuel with
  | 0 => none
  | fuel + 1 =>
    match skipWs s with
    | [] => none
    | c :: cs =>
      if c == quoteChar then
        match parseStrBody [] cs with
        | some (st, rest) => some (Json.str st, rest)
        | none => none
      else if c == lbraceChar then
        match skipWs cs with
        | [] => none
        | d :: ds =>
          if d == rbraceChar then some (Json.obj [], ds)
          else parseObjMembers fuel [] (d :: ds)
      else if c == '[' then
        match skipWs cs with
        | [] => none
        | d :: ds =>
          if d == ']' then some (Json.arr [], ds)
          else parseArrElems fuel [] (d :: ds)
      else if charsStart ['t', 'r', 'u', 'e'] (c :: cs) then
        some (Json.bool true, (c :: cs).drop 4)
      else if charsStart ['f', 'a', 'l', 's', 'e'] (c :: cs) then
        some (Json.bool false, (c :: cs).drop 5)
      else if charsStart ['n', 'u', 'l', 'l'] (c :: cs) then
        some (Json.null, (c :: cs).drop 4)
      else
        match parseNum (c :: cs) with
        | some (lex, rest) => some (Json.num (String.mk lex), rest)
        | none => none
termination_by structural fuel

/-- Parse the members of a non-empty object: a quoted key, `:`, a value,
then `,` (continue) or the closing brace (finish). -/
def parseObjMembers (fuel : Nat) (acc : List (String × Json)) (s : List Char) :
    Option (Json × List Char) :=
  match fuel with
  | 0 => none
  | fuel + 1 =>
    match skipWs s with
    | [] => none
    | c :: cs =>
      if c == quoteChar then
        match parseStrBody [] cs with
        | none => none
        | some (key, rest) =>
          match skipWs rest with
          | [] => none
          | d :: ds =>
            if d == ':' then
              match parseVal fuel ds with
              | none => none
              | some (v, rest2) =>
                match skipWs rest2 with
                | [] => none
                | e :: es =>
                  if e == ',' then parseObjMembers fuel ((key, v) :: acc) es
                  else if e == rbraceChar then
                    some (Json.obj ((key, v) :: acc).reverse, es)
                  else none
            else none
      else none
termination_by structural fuel

/-- Parse the elements of a non-empty array: a value, then `,` (continue)
or `]` (finish). -/
def parseArrElems (fuel : Nat) (acc : List Json) (s : List Char) :
    Option (Json × List Char) :=
  match fuel with
  | 0 => none
  | fuel + 1 =>
    match parseVal fuel s with
    | none => none
    | some (v, rest) =>
      match skipWs rest with
      | [] => none
      | e :: es =>
        if e == ',' then parseArrElems fuel (v :: acc) es
        else if e == ']' then some (Json.arr (v :: acc).reverse, es)
        else none
termination_by structural fuel

end

/-- `JSON.parse`: parse one value and require only trailing whitespace after
it; `none` models a thrown `SyntaxError`. -/
def parseJson (s : String) : Option Json :=
  match parseVal (2 * s.length + 2) s.toList with
  | none => none
  | some (j, rest) => if skipWs rest = [] then some j else none

/-- Field lookup in a parsed object (`none` on non-objects and absent
keys). -/
def jsonField (j : Json) (key : String) : Option Json :=
  match j with
  | Json.obj ms => ms.lookup key
  | _ => none

/-- The literal `"{}"` substituted for an absent or empty response text. -/
def jsonEmptyLit : String := "\x7b\x7d"

/-- `response.text || "{}"` — JavaScript `||` replaces both `undefined` and
the empty string (falsy) by `"{}"`. -/
def responseTextOrDefault (responseText : Option String) : String :=
  match responseText with
  | none => jsonEmptyLit
  | some s => if s == "" then jsonEmptyLit else s

/-- The fixed fallback record of the catch branch. -/
def analysisFallback : Json :=
  Json.obj [("description", Json.str "Analysis failed"),
            ("usp", Json.str "High Quality"),
            ("productCategory", Json.str "General"),
            ("targetGender", Json.str "Unisex")]

/-- The result-handling tail of `analyzeProductDetails`:
`try { return JSON.parse(response.text || "{}") } catch { return fallback }`.
The returned value is whatever `JSON.parse` produced (the TypeScript cast to
`AnalysisResult` performs no validation), so the result is a `Json` value. -/
def analyzeProductDetails (responseText : Option String) : Json :=
  match parseJson (responseTextOrDefault responseText) with
  | some j => j
  | none => analysisFallback

/-! ## Theorems -/

/-! ### Batch orchestrator lemmas -/

theorem batchGroupsFuel_flatten (Q W : Nat) (hW : 0 < W) :
    ∀ fuel i, Q - i ≤ fuel →
      (batchGroupsFuel Q W fuel i).flatten = List.range' i (Q - i) := by
  intro fuel
  induction fuel with
  | zero =>
    intro i hi
    have h0 : Q - i = 0 := by omega
    simp [batchGroupsFuel, h0]
  | succ n ih =>
    intro i hi
    by_cases hlt : i < Q
    · rw [batchGroupsFuel, if_pos ⟨hW, hlt⟩, List.flatten_cons, ih (i + W) (by omega)]
      unfold batchGroup
      rcases Nat.le_total W (Q - i) with hle | hle
      · rw [Nat.min_eq_left hle]
        have h2 : Q - (i + W) = Q - i - W := by omega
        rw [h2]
        have h3 := List.range'_append i W (Q - i - W) 1
        simp only [Nat.one_mul] at h3
        rw [h3]
        congr 1
        omega
      · rw [Nat.min_eq_right hle]
        have h2 : Q - (i + W) = 0 := by omega
        simp [h2]
    · rw [batchGroupsFuel]
      have h0 : Q - i = 0 := by omega
      have : ¬ (0 < W ∧ i < Q) := by omega
      simp [this, h0]

theorem batchGroupsFuel_length (Q W : Nat) (hW : 0 < W) :
    ∀ fuel i, Q - i ≤ fuel →
      (batchGroupsFuel Q W fuel i).length = (Q - i + (W - 1)) / W := by
  intro fuel
  induction fuel with
  | zero =>
    intro i hi
    have h0 : Q - i = 0 := by omega
    rw [batchGroupsFuel, h0]
    simp [Nat.div_eq_of_lt (by omega : W - 1 < W)]
  | succ n ih =>
    intro i hi
    by_cases hlt : i < Q
    · rw [batchGroupsFuel, if_pos ⟨hW, hlt⟩, List.length_cons, ih (i + W) (by omega)]
      have h1 : Q - i + (W - 1) = (Q - i - 1) + W := by omega
      rw [h1, Nat.add_div_right _ hW]
      rcases Nat.le_total W (Q - i) with hle | hle
      · have h3 : Q - (i + W) + (W - 1) = Q - i - 1 := by omega
        rw [h3]
      · have h3 : Q - (i + W) = 0 := by omega
        have h4 : Q - i - 1 < W := by omega
        rw [h3, Nat.zero_add, Nat.div_eq_of_lt (by omega : W - 1 < W),
            Nat.div_eq_of_lt h4]
    · rw [batchGroupsFuel]
      have h0 : Q - i = 0 := by omega
      have : ¬ (0 < W ∧ i < Q) := by omega
      simp [this, h0, Nat.div_eq_of_lt (by omega : W - 1 < W)]

theorem batchGroupsFuel_mem (Q W : Nat) :
    ∀ fuel i g, g ∈ batchGroupsFuel Q W fuel i → g.length ≤ W ∧ g ≠ [] := by
  intro fuel
  induction fuel with
  | zero =>
    intro i g hg
    simp [batchGroupsFuel] at hg
  | succ n ih =>
    intro i g hg
    rw [batchGroupsFuel] at hg
    by_cases h : 0 < W ∧ i < Q
    · rw [if_pos h] at hg
      rcases List.mem_cons.1 hg with hhead | htail
      · subst hhead
        constructor
        · simp [batchGroup, List.length_range']
        · have hpos : 0 < min W (Q - i) := by omega
          have : (batchGroup Q W i).length = min W (Q - i) := by
            simp [batchGroup, List.length_range']
          intro hnil
          rw [hnil] at this
          simp at this
          omega
      · exact ih (i + W) g htail
    · rw [if_neg h] at hg
      simp at hg

theorem batchGroups_flatten (Q : Nat) : (batchGroups Q).flatten = List.range Q := by
  unfold batchGroups
  rw [batchGroupsFuel_flatten Q BATCH_SIZE (by decide) Q 0 (by omega),
      Nat.sub_zero, List.range_eq_range']

theorem collectedUrls_eq (Q : Nat) (gen : Nat → Option String) :
    collectedUrls Q gen = (List.range Q).filterMap gen := by
  have h1 : ∀ L : List (List Nat),
      (L.map (fun g => g.filterMap gen)).flatten = L.flatten.filterMap gen := by
    intro L
    induction L with
    | nil => rfl
    | cons g rest ih =>
      rw [List.map_cons, List.flatten_cons, List.flatten_cons,
          List.filterMap_append, ih]
  unfold collectedUrls
  rw [h1, batchGroups_flatten]

theorem flatten_groupEvents_order (L : List (List Nat)) :
    ∀ (k : Nat) (ga gb : List Nat), L.get? k = some ga → L.get? (k + 1) = some gb →
      ∀ a ∈ ga, ∀ b ∈ gb,
        ∃ t1 t2 t3, (L.map groupEvents).flatten
          = t1 ++ BatchEvent.settle a :: (t2 ++ BatchEvent.dispatch b :: t3) := by
  induction L with
  | nil =>
    intro k ga gb hga
    simp at hga
  | cons g rest ih =>
    intro k ga gb hga hgb a ha b hb
    cases k with
    | zero =>
      have hga' : g = ga := by simpa using hga
      subst hga'
      cases rest with
      | nil => simp at hgb
      | cons g2 rest2 =>
        have hgb' : g2 = gb := by simpa using hgb
        subst hgb'
        obtain ⟨s1, s2, hs⟩ := List.append_of_mem ha
        obtain ⟨d1, d2, hd⟩ := List.append_of_mem hb
        refine ⟨g.map BatchEvent.dispatch ++ s1.map BatchEvent.settle,
                s2.map BatchEvent.settle ++ d1.map BatchEvent.dispatch,
                d2.map BatchEvent.dispatch ++ g2.map BatchEvent.settle
                  ++ (rest2.map groupEvents).flatten, ?_⟩
        subst hs
        subst hd
        simp [groupEvents, List.map_append, List.append_assoc]
    | succ k' =>
      have hga' : rest.get? k' = some ga := by simpa using hga
      have hgb' : rest.get? (k' + 1) = some gb := by simpa using hgb
      obtain ⟨t1, t2, t3, ht⟩ := ih k' ga gb hga' hgb' a ha b hb
      exact ⟨groupEvents g ++ t1, t2, t3, by simp [ht, List.append_assoc]⟩

/-! ### Claims C1 - C3 -/

/-- C1: for every batch run with quantity `Q ≥ 1` and concurrency window 4
(`generateStudioImage` and `generateCompositeImage`), the indices `0..Q-1`
are partitioned into exactly `⌈Q/4⌉ = (Q + 3) / 4` consecutive nonempty
groups of at most 4 items each (their concatenation, in order, is
`0, 1, ..., Q-1`), and every call of group `k` settles before any call of
group `k+1` is dispatched. -/
theorem batch_grouping_and_sequencing (Q : Nat) (hQ : 1 ≤ Q) :
    (batchGroups Q).length = (Q + (BATCH_SIZE - 1)) / BATCH_SIZE
  ∧ (batchGroups Q).flatten = List.range Q
  ∧ (∀ g ∈ batchGroups Q, g.length ≤ BATCH_SIZE ∧ g ≠ [])
  ∧ (∀ k ga gb, (batchGroups Q).get? k = some ga →
      (batchGroups Q).get? (k + 1) = some gb →
      ∀ a ∈ ga, ∀ b ∈ gb, settledBefore (batchTrace Q) a b) := by
  refine ⟨?_, batchGroups_flatten Q, ?_, ?_⟩
  · unfold batchGroups
    rw [batchGroupsFuel_length Q BATCH_SIZE (by decide) Q 0 (by omega), Nat.sub_zero]
  · intro g hg
    exact batchGroupsFuel_mem Q BATCH_SIZE Q 0 g hg
  · intro k ga gb hga hgb a ha b hb
    exact flatten_groupEvents_order (batchGroups Q) k ga gb hga hgb a ha b hb

/-- Witness for C1 at the concrete quantity 10 (Scenario B: groups
[4, 4, 2]). -/
theorem batch_grouping_and_sequencing_witness :
    1 ≤ 10
  ∧ ((batchGroups 10).length = (10 + (BATCH_SIZE - 1)) / BATCH_SIZE
     ∧ (batchGroups 10).flatten = List.range 10
     ∧ (∀ g ∈ batchGroups 10, g.length ≤ BATCH_SIZE ∧ g ≠ [])
     ∧ (∀ k ga gb, (batchGroups 10).get? k = some ga →
         (batchGroups 10).get? (k + 1) = some gb →
         ∀ a ∈ ga, ∀ b ∈ gb, settledBefore (batchTrace 10) a b)) :=
  ⟨by decide, batch_grouping_and_sequencing 10 (by decide)⟩

/-- C2: a batch run that produces zero artifacts ends in the explicit thrown
error of its orchestrator (`"No image generated"` /
`"No composite images generated"`), never in a successful (empty or other)
list — in particular when every item's call fails (`gen` is constantly
`none`, e.g. all 4 of 4 items throw). -/
theorem batch_total_failure_signals_error (Q : Nat) (gen : Nat → Option String)
    (h : (List.range Q).filterMap gen = []) :
    generateStudioImage Q gen = Except.error "No image generated"
  ∧ generateCompositeImage Q gen = Except.error "No composite images generated"
  ∧ (∀ urls, generateStudioImage Q gen ≠ Except.ok urls)
  ∧ (∀ urls, generateCompositeImage Q gen ≠ Except.ok urls) := by
  have hc : collectedUrls Q gen = [] := by rw [collectedUrls_eq, h]
  refine ⟨?_, ?_, ?_, ?_⟩ <;>
    simp [generateStudioImage, generateCompositeImage, hc]

/-- Witness for C2: Scenario F, a batch of 4 where all 4 calls fail. -/
theorem batch_total_failure_signals_error_witness :
    (List.range 4).filterMap (fun _ => (none : Option String)) = []
  ∧ generateStudioImage 4 (fun _ => none) = Except.error "No image generated"
  ∧ generateCompositeImage 4 (fun _ => none)
      = Except.error "No composite images generated" :=
  ⟨rfl, (batch_total_failure_signals_error 4 (fun _ => none) rfl).1,
        (batch_total_failure_signals_error 4 (fun _ => none) rfl).2.1⟩

/-- C3: when some items fail (are caught item-level and mapped to `none`)
but at least one succeeds, both batch orchestrators return exactly the
successful items' artifacts in index order — no sibling item and no
subsequent group is lost. -/
theorem batch_partial_failure_keeps_successes (Q : Nat) (gen : Nat → Option String)
    (h : (List.range Q).filterMap gen ≠ []) :
    generateStudioImage Q gen = Except.ok ((List.range Q).filterMap gen)
  ∧ generateCompositeImage Q gen = Except.ok ((List.range Q).filterMap gen) := by
  have hc : collectedUrls Q gen = (List.range Q).filterMap gen :=
    collectedUrls_eq Q gen
  have hlen : ¬ ((List.range Q).filterMap gen).length = 0 := by
    simpa [List.length_eq_zero] using h
  constructor <;> simp [generateStudioImage, generateCompositeImage, hc, hlen]

/-- Witness for C3: Scenario E, a batch of 4 where items 2 and 3 throw;
the result is exactly ["A", "D"] (items 1 and 4, in order). -/
theorem batch_partial_failure_keeps_successes_witness :
    (List.range 4).filterMap scenarioEGen = ["A", "D"]
  ∧ generateStudioImage 4 scenarioEGen
      = Except.ok ((List.range 4).filterMap scenarioEGen)
  ∧ generateCompositeImage 4 scenarioEGen
      = Except.ok ((List.range 4).filterMap scenarioEGen) :=
  ⟨rfl, batch_partial_failure_keeps_successes 4 scenarioEGen (by decide)⟩

/-! ### Claims C4 - C5 (video synthesis) -/

/-- C4, counterexample: the claim says the completed result exposed to the
caller is the backend's artifact URI unmodified; but for a done operation
with URI "X" and API key "K" the function returns "X&key=K", not "X"
(line 278 appends `&key=API_KEY` before returning). -/
theorem veo_uri_not_exposed_unmodified :
    generateVeoVideo ⟨true, some "X"⟩ [] "K" = some (some "X&key=K")
  ∧ generateVeoVideo ⟨true, some "X"⟩ [] "K" ≠ some (some "X") :=
  ⟨rfl, by decide⟩

/-- C4, amended: for every video-synthesis job whose poll loop terminates on
a done operation carrying artifact URI `u`, if `u` is non-empty the value
exposed to the caller as the completed result is `u` with the API key
appended as a query parameter, `u ++ "&key=" ++ apiKey` (not `u`
unmodified); an empty `u` is falsy, so `if (!videoUri) return null` reports
failure instead. -/
theorem veo_uri_exposed_with_key (initialOp : VeoOperation)
    (fetches : List VeoOperation) (apiKey u : String)
    (finalOp : VeoOperation) (cycles : Nat)
    (hpoll : pollVeo initialOp fetches 0 = some (finalOp, cycles))
    (huri : finalOp.videoUri = some u) :
    (u ≠ "" →
      generateVeoVideo initialOp fetches apiKey = some (some (u ++ "&key=" ++ apiKey)))
  ∧ (u = "" → generateVeoVideo initialOp fetches apiKey = some none) := by
  constructor
  · intro hne
    unfold generateVeoVideo
    rw [hpoll]
    show (match finalOp.videoUri with
          | none => some none
          | some videoUri =>
            if videoUri = "" then some none
            else some (some (videoUri ++ "&key=" ++ apiKey))) = _
    rw [huri]
    exact if_neg hne
  · intro he
    unfold generateVeoVideo
    rw [hpoll]
    show (match finalOp.videoUri with
          | none => some none
          | some videoUri =>
            if videoUri = "" then some none
            else some (some (videoUri ++ "&key=" ++ apiKey))) = _
    rw [huri, he]
    exact if_pos rfl

/-- Witness for the amended C4 at a concrete done operation with the
non-empty URI "X". -/
theorem veo_uri_exposed_with_key_witness :
    generateVeoVideo ⟨true, some "X"⟩ [] "K" = some (some ("X" ++ "&key=" ++ "K")) :=
  (veo_uri_exposed_with_key ⟨true, some "X"⟩ [] "K" "X" ⟨true, some "X"⟩ 0 rfl rfl).1
    (by decide)

/-- C5: the poller waits a fixed 5000 ms interval per cycle; an operation
that is initially not done and whose re-fetches return not-done once and
then done with artifact URI `x` costs exactly 2 delay/re-check cycles and
extracts `x`; while not done the loop always re-fetches (never returns);
and a done operation without an artifact URI makes `generateVeoVideo`
report failure (`null`, which the caller maps to a failed status) rather
than success. -/
theorem veo_poller_cycles_and_failure (u0 u1 : Option String) (x : String) :
    POLL_INTERVAL_MS = 5000
  ∧ pollVideoResult ⟨false, u0⟩ [⟨false, u1⟩, ⟨true, some x⟩] = some (2, some x)
  ∧ (∀ (op : VeoOperation), op.done = false → ∀ fetches cycles,
      pollVeo op fetches cycles =
        match fetches with
        | [] => none
        | f :: rest => pollVeo f rest (cycles + 1))
  ∧ (∀ (initialOp : VeoOperation) (fetches : List VeoOperation) (apiKey : String)
       (finalOp : VeoOperation) (cycles : Nat),
      pollVeo initialOp fetches 0 = some (finalOp, cycles) →
      finalOp.videoUri = none →
      generateVeoVideo initialOp fetches apiKey = some none
        ∧ sceneStatusOf none = SceneStatus.failed) := by
  refine ⟨rfl, rfl, ?_, ?_⟩
  · intro op hop fetches cycles
    rw [pollVeo.eq_def, hop]
    simp
  · intro initialOp fetches apiKey finalOp cycles hpoll huri
    constructor
    · unfold generateVeoVideo
      rw [hpoll]
      show (match finalOp.videoUri with
            | none => some none
            | some videoUri =>
              if videoUri = "" then some none
              else some (some (videoUri ++ "&key=" ++ apiKey))) = _
      rw [huri]
    · rfl

/-- Witness for C5: Scenario D (done=false, done=false, done=true with
URI "X") and a done operation without a URI. -/
theorem veo_poller_cycles_and_failure_witness :
    pollVideoResult ⟨false, none⟩ [⟨false, none⟩, ⟨true, some "X"⟩] = some (2, some "X")
  ∧ (generateVeoVideo ⟨true, none⟩ [] "K" = some none
       ∧ sceneStatusOf none = SceneStatus.failed) :=
  ⟨(veo_poller_cycles_and_failure none none "X").2.1,
   (veo_poller_cycles_and_failure none none "X").2.2.2 ⟨true, none⟩ [] "K"
     ⟨true, none⟩ 0 rfl rfl⟩

/-! ### Claims C6, C10 (defensive analysis parsing) and C7 (action derivation) -/

/-- C6: whenever the analysis response text (after the `|| "{}"`
substitution) is unparsable as JSON, `analyzeProductDetails` returns the
fixed fallback record `{description: "Analysis failed", usp: "High Quality",
productCategory: "General", targetGender: "Unisex"}`; the parse failure is
absorbed by the catch branch, never propagated (the function is total and
always returns a value). -/
theorem analysis_parse_failure_yields_fallback (responseText : Option String)
    (h : parseJson (responseTextOrDefault responseText) = none) :
    analyzeProductDetails responseText = analysisFallback := by
  unfold analyzeProductDetails
  rw [h]

/-- Witness for C6: Scenario C with the unparsable response text
"not json". -/
theorem analysis_parse_failure_yields_fallback_witness :
    parseJson (responseTextOrDefault (some "not json")) = none
  ∧ analyzeProductDetails (some "not json") = analysisFallback :=
  ⟨rfl, analysis_parse_failure_yields_fallback (some "not json") rfl⟩

/-- C10: when the response text is absent or empty, the substituted literal
`"{}"` parses successfully to the empty object, so `analyzeProductDetails`
returns an empty record containing none of the four documented fields — not
the "Analysis failed" fallback; the fallback is produced only when the parse
actually fails (when it succeeds the parsed value is returned as-is). -/
theorem empty_response_yields_empty_record :
    analyzeProductDetails none = Json.obj []
  ∧ analyzeProductDetails (some "") = Json.obj []
  ∧ jsonField (Json.obj []) "description" = none
  ∧ jsonField (Json.obj []) "usp" = none
  ∧ jsonField (Json.obj []) "productCategory" = none
  ∧ jsonField (Json.obj []) "targetGender" = none
  ∧ Json.obj [] ≠ analysisFallback
  ∧ (∀ (t : Option String) (j : Json),
      parseJson (responseTextOrDefault t) = some j →
      analyzeProductDetails t = j) := by
  refine ⟨rfl, rfl, rfl, rfl, rfl, rfl, ?_, ?_⟩
  · intro h
    simp [analysisFallback] at h
  · intro t j h
    unfold analyzeProductDetails
    rw [h]

/-- Witness for C10's conditional conjunct: the absent response text parses
to the empty object and is returned as-is. -/
theorem empty_response_yields_empty_record_witness :
    analyzeProductDetails none = Json.obj [] :=
  empty_response_yields_empty_record.2.2.2.2.2.2.2 none (Json.obj []) rfl

/-- C7: when automatic action selection is requested (pose contains
"Smart Adaptive" or equals "Let AI Decide (Auto)") and analysis data is
present, the derived action phrase is selected by matching the product
category against the keyword classes footwear (shoe/footwear),
skincare (skincare/cosmetic), apparel (clothing/fashion) and
beverage (beverage/food), in that precedence order; every category matching
none of the classes yields the generic phrase
"Natural interaction with the product in a lifestyle setting.". -/
theorem category_conditioned_action (pose : String) (ad : AnalysisResult)
    (hauto : autoActionRequested pose = true) :
    (isFootwearCategory ad.productCategory = true →
        derivedAction pose (some ad) = footwearAction)
  ∧ (isFootwearCategory ad.productCategory = false →
     isSkincareCategory ad.productCategory = true →
        derivedAction pose (some ad) = skincareAction)
  ∧ (isFootwearCategory ad.productCategory = false →
     isSkincareCategory ad.productCategory = false →
     isApparelCategory ad.productCategory = true →
        derivedAction pose (some ad) = apparelAction)
  ∧ (isFootwearCategory ad.productCategory = false →
     isSkincareCategory ad.productCategory = false →
     isApparelCategory ad.productCategory = false →
     isBeverageCategory ad.productCategory = true →
        derivedAction pose (some ad) = beverageAction)
  ∧ (isFootwearCategory ad.productCategory = false →
     isSkincareCategory ad.productCategory = false →
     isApparelCategory ad.productCategory = false →
     isBeverageCategory ad.productCategory = false →
        derivedAction pose (some ad) = genericAction) := by
  refine ⟨?_, ?_, ?_, ?_, ?_⟩ <;> intros <;> simp_all [derivedAction]

/-- Witness for C7: the category "Gadget" matches no keyword class, so the
generic phrase is selected. -/
theorem category_conditioned_action_witness :
    autoActionRequested "Let AI Decide (Auto)" = true
  ∧ derivedAction "Let AI Decide (Auto)"
      (some ⟨"", "", "Gadget", ""⟩) = genericAction :=
  ⟨rfl, (category_conditioned_action "Let AI Decide (Auto)"
      ⟨"", "", "Gadget", ""⟩ rfl).2.2.2.2 rfl rfl rfl rfl⟩

/-! ### Claims C8 - C9 (scene orchestrator) -/

/-- C8: scenes lacking their required input image are excluded before any
call is dispatched (they are not in `validScenes`), are absent from the
initial result collection (which is built from `validScenes` only), and do
not count toward the total-failure evaluation (`handleGenerateInit` aborts
the run exactly when every scene lacks an image); exactly the scenes with an
image are dispatched, one job each (multiset equality via `count`). -/
theorem scenes_without_image_excluded (scenes : List VideoGenerationScene) :
    (∀ s ∈ scenes, s.image = none → s ∉ validScenes scenes)
  ∧ (∀ s : VideoGenerationScene, s.image ≠ none →
        (validScenes scenes).count s = scenes.count s)
  ∧ (handleGenerateInit scenes = none ↔ ∀ s ∈ scenes, s.image = none)
  ∧ (∀ res jobs, handleGenerateInit scenes = some (res, jobs) →
        jobs = validScenes scenes
      ∧ res = (validScenes scenes).map (fun s => ⟨s.id, "", SceneStatus.generating⟩)) := by
  have hval : validScenes scenes = [] ↔ ∀ s ∈ scenes, s.image = none := by
    unfold validScenes
    rw [List.filter_eq_nil_iff]
    constructor
    · intro h s hs
      have := h s hs
      simpa [Option.isSome_iff_ne_none] using this
    · intro h s hs
      simp [h s hs]
  refine ⟨?_, ?_, ?_, ?_⟩
  · intro s _ hnone hmem
    rw [validScenes, List.mem_filter] at hmem
    rw [hnone] at hmem
    simp at hmem
  · intro s hs
    exact List.count_filter (by simpa [Option.isSome_iff_ne_none] using hs)
  · constructor
    · intro h
      rw [← hval]
      by_contra hne
      have hl : ¬ (validScenes scenes).length = 0 := by
        simpa [List.length_eq_zero] using hne
      simp only [handleGenerateInit] at h
      rw [if_neg hl] at h
      exact Option.noConfusion h
    · intro h
      have hnil : validScenes scenes = [] := hval.mpr h
      simp [handleGenerateInit, hnil]
  · intro res jobs h
    simp only [handleGenerateInit] at h
    by_cases hl : (validScenes scenes).length = 0
    · rw [if_pos hl] at h
      exact Option.noConfusion h
    · rw [if_neg hl] at h
      have hinj := Option.some.inj h
      have h1 : initialVideoResults scenes = res := congrArg Prod.fst hinj
      have h2 : validScenes scenes = jobs := congrArg Prod.snd hinj
      exact ⟨h2.symm, h1.symm⟩

/-- Witness for C8 on a concrete scene list: the imageless scene is not
dispatched, the imaged scene keeps its single job. -/
theorem scenes_without_image_excluded_witness :
    (⟨"1", none, ""⟩ : VideoGenerationScene)
      ∉ validScenes [⟨"1", none, ""⟩, ⟨"2", some "img", "walk"⟩]
  ∧ (validScenes [⟨"1", none, ""⟩, ⟨"2", some "img", "walk"⟩]).count
        ⟨"2", some "img", "walk"⟩
      = ([⟨"1", none, ""⟩, ⟨"2", some "img", "walk"⟩] :
          List VideoGenerationScene).count ⟨"2", some "img", "walk"⟩ :=
  ⟨(scenes_without_image_excluded [⟨"1", none, ""⟩, ⟨"2", some "img", "walk"⟩]).1
      ⟨"1", none, ""⟩ (by decide) rfl,
   (scenes_without_image_excluded [⟨"1", none, ""⟩, ⟨"2", some "img", "walk"⟩]).2.1
      ⟨"2", some "img", "walk"⟩ (by decide)⟩

/-- C9: in the scene orchestrator's per-scene error handler, an error whose
message matches the recognized credential signature ("Requested entity was
not found") triggers exactly one credential-reacquisition call and sets the
user-visible advisory message, while the scene's job is still marked failed
and nothing is re-dispatched (the result collection keeps its length, only
the matching scene's status changes); an error not matching the signature
only marks the scene failed, leaving advisory message and reacquisition
count untouched. -/
theorem credential_error_recovery (st : OrchestratorState) (sceneId : String)
    (errMsg : Option String) :
    (isCredentialError errMsg = true →
        (handleSceneError st sceneId errMsg).keySelectCalls = st.keySelectCalls + 1
      ∧ (handleSceneError st sceneId errMsg).errorMsg = some apiKeyAdvisoryMsg)
  ∧ (isCredentialError errMsg = false →
        (handleSceneError st sceneId errMsg).keySelectCalls = st.keySelectCalls
      ∧ (handleSceneError st sceneId errMsg).errorMsg = st.errorMsg)
  ∧ (handleSceneError st sceneId errMsg).generatedVideos
      = markSceneFailed st.generatedVideos sceneId
  ∧ (handleSceneError st sceneId errMsg).generatedVideos.length
      = st.generatedVideos.length
  ∧ (∀ v ∈ st.generatedVideos, v.sceneId = sceneId →
      (⟨v.sceneId, v.videoUrl, SceneStatus.failed⟩ : GeneratedVideoResult)
        ∈ (handleSceneError st sceneId errMsg).generatedVideos)
  ∧ (∀ v ∈ st.generatedVideos, v.sceneId ≠ sceneId →
      v ∈ (handleSceneError st sceneId errMsg).generatedVideos) := by
  refine ⟨?_, ?_, ?_, ?_, ?_, ?_⟩
  · intro h
    simp [handleSceneError, h]
  · intro h
    simp [handleSceneError, h]
  · by_cases h : isCredentialError errMsg <;> simp [handleSceneError, h]
  · by_cases h : isCredentialError errMsg <;>
      simp [handleSceneError, markSceneFailed, h]
  · intro v hv hvid
    by_cases h : isCredentialError errMsg <;>
    · simp only [handleSceneError, h, if_true, if_false, Bool.false_eq_true,
        if_neg, markSceneFailed, List.mem_map]
      exact ⟨v, hv, by simp [hvid]⟩
  · intro v hv hvid
    by_cases h : isCredentialError errMsg <;>
    · simp only [handleSceneError, h, if_true, if_false, Bool.false_eq_true,
        if_neg, markSceneFailed, List.mem_map]
      exact ⟨v, hv, by simp [hvid]⟩

/-- Witness for C9 at a concrete state and a matching error message. -/
theorem credential_error_recovery_witness :
    (handleSceneError ⟨none, 0, [⟨"s1", "", SceneStatus.generating⟩]⟩ "s1"
        (some "Error: Requested entity was not found.")).keySelectCalls
      = (⟨none, 0, [⟨"s1", "", SceneStatus.generating⟩]⟩ :
          OrchestratorState).keySelectCalls + 1
  ∧ (handleSceneError ⟨none, 0, [⟨"s1", "", SceneStatus.generating⟩]⟩ "s1"
        (some "Error: Requested entity was not found.")).errorMsg
      = some apiKeyAdvisoryMsg :=
  (credential_error_recovery ⟨none, 0, [⟨"s1", "", SceneStatus.generating⟩]⟩
      "s1" (some "Error: Requested entity was not found.")).1 rfl
